import Mathlib

/-!
Formal model of the linktolead extraction and field-mapping pipeline.

The Python sources modelled here are:
- `linktolead/mappings/hubspot.py` (`get_company_properties`, `get_deal_properties`)
- `linktolead/pdf_parser.py` (`LinkedInPDFParser._parse_job_details`,
  `_parse_company_details`, `combine_data`, and the text-level parts of
  `parse_job_pdf` / `parse_company_pdf`)
- `linktolead/llm_processor.py` (`_process_with_llm_library`,
  `process_data_with_llm`)

Python dictionaries with string keys are modelled as insertion-ordered
association lists (`Dict`); dictionary assignment is update-in-place or
append (`dinsert`), exactly Python's behaviour.  Values are either strings
or lists of strings (`Value`), the only value shapes the pipeline produces;
Python truthiness of such a value is `Value.isTruthy`.  The external
language-model call (`llm.get_model(...).prompt(...)` plus `.text()`) is a
parameter (`modelCall`), returning `Except` to model a raised exception.
Python regular-expression search is modelled by a small backtracking
engine with Python's priority semantics (leftmost match, left-first
alternation, greedy/lazy quantifiers); character classes are modelled over
ASCII (the Python `re` classes `\w`/`\s` are Unicode-aware, which no
theorem below depends on).
-/

namespace LinkToLead

/-- A Python value as used in the pipeline's dictionaries: a string or a
list of strings. -/
inductive Value where
  | str (s : String)
  | list (l : List String)
deriving DecidableEq, Repr

/-- Python truthiness of a `Value`: non-empty string / non-empty list. -/
def Value.isTruthy : Value → Bool
  | .str s => s.length != 0
  | .list l => l.length != 0

/-- A Python `dict[str, ...]` as an insertion-ordered association list. -/
abbrev Dict := List (String × Value)

/-- `d[k]` / `d.get(k)`: the value at the first occurrence of key `k`. -/
def lookup? : Dict → String → Option Value
  | [], _ => none
  | (k', v) :: rest, k => if k' = k then some v else lookup? rest k

/-- Python `k in d`. -/
def hasKey (d : Dict) (k : String) : Bool := (lookup? d k).isSome

/-- Python `if d.get(k):` — key present with a truthy value. -/
def truthy? (d : Dict) (k : String) : Bool :=
  match lookup? d k with
  | some v => v.isTruthy
  | none => false

/-- Python `d[k] = v`: update the existing entry in place, else append. -/
def dinsert : Dict → String → Value → Dict
  | [], k, v => [(k, v)]
  | (k', v') :: rest, k, v =>
    if k' = k then (k, v) :: rest else (k', v') :: dinsert rest k v

/-- Python `d.get(k, dflt)`. -/
def pyGet (d : Dict) (k : String) (dflt : Value) : Value :=
  (lookup? d k).getD dflt

/-- Simplified Python `repr` of a string: the string between two single
quotes (escaping of quote characters inside the string is elided; no
theorem below depends on it). -/
def pyReprStr (s : String) : String :=
  String.singleton (Char.ofNat 39) ++ s ++ String.singleton (Char.ofNat 39)

/-- Python `str()`/f-string conversion of a `Value`.  A string formats as
itself; a list formats as its `repr`. -/
def Value.fmt : Value → String
  | .str s => s
  | .list l => "[" ++ String.intercalate ", " (l.map pyReprStr) ++ "]"

/-! ## `linktolead/mappings/hubspot.py` -/

/-- `COMPANY_FIELD_MAPPING`: HubSpot field name → source data field name. -/
def COMPANY_FIELD_MAPPING : List (String × String) :=
  [("name", "company_name"),
   ("description", "company_description"),
   ("website", "company_website"),
   ("industry", "company_industry"),
   ("linkedin_company_page", "company_url"),
   ("city", "company_location_city"),
   ("state", "company_location_state"),
   ("country", "company_location_country"),
   ("size", "company_size"),
   ("founded_year", "company_founded"),
   ("about_us", "company_about")]

/-- `DEAL_FIELD_MAPPING`: HubSpot field name → source data field name. -/
def DEAL_FIELD_MAPPING : List (String × String) :=
  [("dealname", "job_title"),
   ("description", "job_description"),
   ("linkedin_job_url", "job_url"),
   ("job_function", "job_function"),
   ("employment_type", "job_employment_type"),
   ("experience_level", "job_experience_level"),
   ("location", "job_location"),
   ("salary_range", "job_salary"),
   ("application_deadline", "job_deadline"),
   ("date_posted", "job_posted_date")]

/-- One iteration of the field-mapping loop shared by both mappers:
`if source_field in data and data[source_field]:
   props[hubspot_field] = data[source_field]`. -/
def mapStep (data props : Dict) (hf sf : String) : Dict :=
  match lookup? data sf with
  | some v => if v.isTruthy then dinsert props hf v else props
  | none => props

/-- The field-mapping loop over the kind's (destination, source) table. -/
def mapFields (mapping : List (String × String)) (data : Dict) (props : Dict) :
    Dict :=
  match mapping with
  | [] => props
  | (hf, sf) :: rest => mapFields rest data (mapStep data props hf sf)

/-- Character-list prefix test. -/
def listIsPfx : List Char → List Char → Bool
  | [], _ => true
  | _ :: _, [] => false
  | p :: ps, c :: cs => p = c && listIsPfx ps cs

/-- Python `k.startswith(pfx)`. -/
def pyStartsWith (k pfx : String) : Bool := listIsPfx pfx.data k.data

/-- Python `k[len(pfx):]` — drop the prefix's length in characters. -/
def dropPfx (pfx k : String) : String := String.mk (k.data.drop pfx.length)

/-- One iteration of the generic prefixed-defaults loop: when the
defaults key starts with `pfx`, is not excluded, and its value is truthy,
strip the prefix and set the property only if not already set. -/
def defStep (pfx : String) (excluded : List String) (props : Dict)
    (k : String) (v : Value) : Dict :=
  if pyStartsWith k pfx = true ∧ k ∉ excluded ∧ v.isTruthy = true then
    if hasKey props (dropPfx pfx k) then props
    else dinsert props (dropPfx pfx k) v
  else props

/-- The generic prefixed-defaults loop shared by both mappers. -/
def defaultsPass (pfx : String) (excluded : List String) (defaults : Dict)
    (props : Dict) : Dict :=
  match defaults with
  | [] => props
  | (k, v) :: rest => defaultsPass pfx excluded rest (defStep pfx excluded props k v)

/-- `if defaults.get(dkey): props[hkey] = defaults[dkey]`. -/
def setFromDefault (props : Dict) (defaults : Dict) (dkey hkey : String) :
    Dict :=
  match lookup? defaults dkey with
  | some v => if v.isTruthy then dinsert props hkey v else props
  | none => props

/-- The trailing block of `get_company_properties`:
`if 'name' not in company_properties and 'company_name' in data:
   company_properties['name'] = data['company_name']`. -/
def companyNameFallback (data : Dict) (props : Dict) : Dict :=
  if hasKey props "name" then props
  else
    match lookup? data "company_name" with
    | some v => dinsert props "name" v
    | none => props

/-- `get_company_properties(data, defaults)` from
`linktolead/mappings/hubspot.py` (a `None` defaults argument collapses to
the empty dictionary before this point, per `defaults = defaults or {}`). -/
def get_company_properties (data : Dict) (defaults : Dict) : Dict :=
  companyNameFallback data
    (defaultsPass "company_" [] defaults
      (mapFields COMPANY_FIELD_MAPPING data []))

/-- The synthesized deal-name string:
`f"{job_title} at {company_name}"` with
`data.get('job_title', 'Unknown Position')` and
`data.get('company_name', 'Unknown Company')`. -/
def synthDealname (data : Dict) : String :=
  (pyGet data "job_title" (Value.str "Unknown Position")).fmt ++ " at " ++
    (pyGet data "company_name" (Value.str "Unknown Company")).fmt

/-- The trailing block of `get_deal_properties`: create a default deal
name if none exists. -/
def dealnameFallback (data : Dict) (props : Dict) : Dict :=
  if hasKey props "dealname" then props
  else dinsert props "dealname" (Value.str (synthDealname data))

/-- The three well-known defaults keys excluded from the generic `deal_`
pass. -/
def dealWellKnownKeys : List String :=
  ["deal_stage_id", "deal_pipeline_id", "deal_owner_id"]

/-- `get_deal_properties(data, defaults)` from
`linktolead/mappings/hubspot.py`. -/
def get_deal_properties (data : Dict) (defaults : Dict) : Dict :=
  dealnameFallback data
    (defaultsPass "deal_" dealWellKnownKeys defaults
      (setFromDefault
        (setFromDefault
          (setFromDefault (mapFields DEAL_FIELD_MAPPING data [])
            defaults "deal_stage_id" "dealstage")
          defaults "deal_pipeline_id" "pipeline")
        defaults "deal_owner_id" "hubspot_owner_id"))

/-! ## `LinkedInPDFParser.combine_data` from `linktolead/pdf_parser.py` -/

/-- The combined record `{"job": ..., "company": ...}`. -/
structure Combined where
  job : Dict
  company : Dict
deriving DecidableEq, Repr

/-- One cross-fill step of `combine_data`:
`if not job_data.get(jkey) and company_data.get(ckey):
   job_data[jkey] = company_data[ckey]`. -/
def crossFill (j : Dict) (c : Dict) (jkey ckey : String) : Dict :=
  if truthy? j jkey then j
  else
    match lookup? c ckey with
    | some v => if v.isTruthy then dinsert j jkey v else j
    | none => j

/-- `combine_data(job_data, company_data)`: company name fills an empty
job company, then company industry fills an empty job industry (the
second test reads the job dictionary after the first mutation, which
cannot touch the `industry` key). -/
def combine_data (job_data : Dict) (company_data : Dict) : Combined :=
  let j1 := crossFill job_data company_data "company" "name"
  let j2 := crossFill j1 company_data "industry" "industry"
  { job := j2, company := company_data }

/-! ## `linktolead/llm_processor.py` -/

/-- The `{` character (written via its code point). -/
def lbrace : Char := Char.ofNat 123

/-- The `}` character (written via its code point). -/
def rbrace : Char := Char.ofNat 125

/-- Scan a replacement-field name up to the closing brace; `none` when the
template ends before the brace closes. -/
def scanField : List Char → Option (List Char × List Char)
  | [] => none
  | c :: rest =>
    if c = rbrace then some ([], rest)
    else
      match scanField rest with
      | some (nm, after) => some (c :: nm, after)
      | none => none

/-- Core of Python `template.format(content=content)`: copies literal
text, doubles braces unescape, the field `content` substitutes, and any
other field or stray brace fails (Python raises `KeyError`/`ValueError`;
a field with a format spec is likewise folded into the failure case). -/
def pyFormatCore (content : List Char) : Nat → List Char → Option (List Char)
  | _, [] => some []
  | 0, _ :: _ => none
  | fuel + 1, c :: rest =>
    if c = lbrace then
      match rest with
      | c2 :: rest2 =>
        if c2 = lbrace then (pyFormatCore content fuel rest2).map (lbrace :: ·)
        else
          match scanField rest with
          | some (nm, after) =>
            if String.mk nm = "content" then
              (pyFormatCore content fuel after).map (content ++ ·)
            else none
          | none => none
      | [] => none
    else if c = rbrace then
      match rest with
      | c2 :: rest2 =>
        if c2 = rbrace then (pyFormatCore content fuel rest2).map (rbrace :: ·)
        else none
      | [] => none
    else (pyFormatCore content fuel rest).map (c :: ·)

/-- Python `template.format(content=content)`, `Except` on a raised
format error. -/
def pyFormat (tpl content : String) : Except String String :=
  match pyFormatCore content.data tpl.data.length tpl.data with
  | some l => Except.ok (String.mk l)
  | none => Except.error "str.format raised"

/-- Whitespace as Python `str.strip()` and the `re` class `\s` see it
(ASCII subset). -/
def isSpaceChar (c : Char) : Bool :=
  c = ' ' || c = '\t' || c = '\n' || c = '\r' || c = Char.ofNat 11 ||
    c = Char.ofNat 12

/-- Python `str.strip()`. -/
def pyStrip (s : String) : String :=
  String.mk (((s.data.dropWhile isSpaceChar).reverse.dropWhile
    isSpaceChar).reverse)

/-- `_generate_job_description_prompt(content)`: the triple-quoted
template with `content` substituted for its single replacement field. -/
def generate_job_description_prompt (content : String) : String :=
  "\n    Below is a LinkedIn job description. \n    Please clean it up, remove HTML artifacts, and organize it into clear sections. \n    Focus on responsibilities, requirements, and benefits if present.\n    Keep the original meaning intact.\n    \n    Original Job Description:\n    " ++
    content ++ "\n    \n    Cleaned Job Description:\n    "

/-- `_generate_company_description_prompt(content)`. -/
def generate_company_description_prompt (content : String) : String :=
  "\n    Below is a LinkedIn company description. \n    Please clean it up, remove any HTML artifacts, and organize it into a clear, concise format.\n    Keep the original meaning intact.\n    \n    Original Company Description:\n    " ++
    content ++ "\n    \n    Cleaned Company Description:\n    "

/-- `_process_with_llm_library(content, prompt_template, model_id)`.  The
body is one `try` block: format the prompt, call the model, strip the
response; any raised exception yields the original content.  The external
call `llm.get_model(model_id).prompt(prompt)` followed by
`response.text()` is the parameter `modelCall prompt model_id`, with
`Except.error` standing for a raised exception. -/
def process_with_llm_library
    (modelCall : String → String → Except String String)
    (content prompt_template model_id : String) : String :=
  match pyFormat prompt_template content with
  | Except.error _ => content
  | Except.ok prompt =>
    match modelCall prompt model_id with
    | Except.error _ => content
    | Except.ok t => pyStrip t

/-- The default model identifier of `process_data_with_llm`. -/
def defaultModelId : String := "mlx-community/Mistral-7B-Instruct-v0.3-4bit"

/-- `config.get('llm_model_id', default)`, coerced to the string the model
boundary receives. -/
def llmModelId (config : Dict) : String :=
  match lookup? config "llm_model_id" with
  | some v => v.fmt
  | none => defaultModelId

/-- `process_data_with_llm(data, config)` from
`linktolead/llm_processor.py`.  `llmLibraryAvailable` models the
module-level `LLM_LIBRARY_AVAILABLE` import flag; `modelCall` is the
external model call as in `process_with_llm_library`.  The two
description blocks guard on key presence with a truthy value and, in the
unsupported-method branch, keep the original content. -/
def process_data_with_llm (llmLibraryAvailable : Bool)
    (modelCall : String → String → Except String String)
    (data config : Dict) : Dict :=
  if truthy? config "llm_enabled" = false then data
  else if lookup? config "llm_method" = some (Value.str "llm-library") ∧
      llmLibraryAvailable = false then data
  else
    let pd := data
    let pd :=
      if truthy? pd "job_description" = true ∧
          lookup? config "llm_method" = some (Value.str "llm-library") then
        let content := (pyGet pd "job_description" (Value.str "")).fmt
        dinsert pd "job_description"
          (Value.str (process_with_llm_library modelCall content
            (generate_job_description_prompt content) (llmModelId config)))
      else pd
    let pd :=
      if truthy? pd "company_description" = true ∧
          lookup? config "llm_method" = some (Value.str "llm-library") then
        let content := (pyGet pd "company_description" (Value.str "")).fmt
        dinsert pd "company_description"
          (Value.str (process_with_llm_library modelCall content
            (generate_company_description_prompt content) (llmModelId config)))
      else pd
    pd

/-! ## A Python-`re` backtracking engine

Only the constructs the source's patterns use are modelled: character
classes, literals, concatenation, priority alternation, greedy and lazy
`+` and `*`, optional `?`, capture groups, and `$` (end of string or just
before a final newline, Python's default-mode `$`).  `reMatch` is written
in continuation-passing style so that failure of the continuation
backtracks through quantifiers and alternatives exactly as Python's
engine does; the fuel argument bounds recursion depth and is chosen large
enough for every concrete evaluation below. -/

/-- Regular-expression abstract syntax. -/
inductive RE where
  | eps
  | cls (p : Char → Bool)
  | lit (s : String)
  | seq (a b : RE)
  | alt (a b : RE)
  | star (lazyq : Bool) (r : RE)
  | plus (lazyq : Bool) (r : RE)
  | opt (r : RE)
  | grp (i : Nat) (r : RE)
  | eol

/-- Captured groups: group index paired with captured text, most recent
first. -/
abbrev Caps := List (Nat × String)

/-- Character comparison, case-insensitive when `ci` is set (Python
`re.IGNORECASE`). -/
def charMatches (ci : Bool) (a b : Char) : Bool :=
  if ci then a.toLower = b.toLower else a = b

/-- Match a literal against a prefix of the input, returning the rest. -/
def litMatch (ci : Bool) : List Char → List Char → Option (List Char)
  | [], s => some s
  | _ :: _, [] => none
  | p :: ps, c :: cs =>
    if charMatches ci p c then litMatch ci ps cs else none

/-- Backtracking matcher.  `k` is the continuation receiving the
remaining input and captures; returning `none` from `k` makes the
quantifiers and alternatives backtrack. -/
def reMatch (ci : Bool) :
    Nat → RE → List Char → Caps →
      (List Char → Caps → Option (List Char × Caps)) →
      Option (List Char × Caps)
  | 0, _, _, _, _ => none
  | fuel + 1, re, s, caps, k =>
    match re with
    | .eps => k s caps
    | .cls p =>
      match s with
      | [] => none
      | c :: rest => if p c then k rest caps else none
    | .lit str =>
      match litMatch ci str.data s with
      | some rest => k rest caps
      | none => none
    | .seq a b =>
      reMatch ci fuel a s caps (fun s2 c2 => reMatch ci fuel b s2 c2 k)
    | .alt a b =>
      match reMatch ci fuel a s caps k with
      | some res => some res
      | none => reMatch ci fuel b s caps k
    | .star lazyq r =>
      if lazyq then
        match k s caps with
        | some res => some res
        | none =>
          reMatch ci fuel r s caps
            (fun s2 c2 => reMatch ci fuel (RE.star lazyq r) s2 c2 k)
      else
        match reMatch ci fuel r s caps
            (fun s2 c2 => reMatch ci fuel (RE.star lazyq r) s2 c2 k) with
        | some res => some res
        | none => k s caps
    | .plus lazyq r =>
      reMatch ci fuel r s caps
        (fun s2 c2 => reMatch ci fuel (RE.star lazyq r) s2 c2 k)
    | .opt r =>
      match reMatch ci fuel r s caps k with
      | some res => some res
      | none => k s caps
    | .grp i r =>
      reMatch ci fuel r s caps
        (fun s2 c2 => k s2 ((i, String.mk (s.take (s.length - s2.length))) :: c2))
    | .eol =>
      match s with
      | [] => k s caps
      | [c] => if c = '\n' then k s caps else none
      | _ => none

/-- Try a match at each position left to right (Python `re.search`),
returning the captures of the leftmost match. -/
def reSearchFrom (ci : Bool) (re : RE) (fuel : Nat) :
    List Char → Option Caps
  | [] =>
    match reMatch ci fuel re [] [] (fun s2 c2 => some (s2, c2)) with
    | some (_, caps) => some caps
    | none => none
  | c :: rest =>
    match reMatch ci fuel re (c :: rest) [] (fun s2 c2 => some (s2, c2)) with
    | some (_, caps) => some caps
    | none => reSearchFrom ci re fuel rest

/-- Fuel that bounds the engine's recursion depth for an input of length
`n`: pattern structure plus two levels per consumed character. -/
def engineFuel (n : Nat) : Nat := 4 * n + 200

/-- `re.search(pattern, text)`, returning the captures on success. -/
def reSearch (ci : Bool) (re : RE) (text : String) : Option Caps :=
  reSearchFrom ci re (engineFuel text.length) text.data

/-- `m.group(i)` of a successful search (`""` for an unmatched group,
which no pattern below produces on success). -/
def groupStr (caps : Caps) (i : Nat) : String :=
  ((caps.find? (fun p => p.1 == i)).map (fun p => p.2)).getD ""

/-- Leftmost match with its start index and consumed length, for
`re.split`. -/
def reFindFrom (ci : Bool) (re : RE) (fuel : Nat) (idx : Nat) :
    List Char → Option (Nat × Nat)
  | [] =>
    match reMatch ci fuel re [] [] (fun s2 c2 => some (s2, c2)) with
    | some (s2, _) => some (idx, 0 - s2.length)
    | none => none
  | c :: rest =>
    match reMatch ci fuel re (c :: rest) [] (fun s2 c2 => some (s2, c2)) with
    | some (s2, _) => some (idx, (c :: rest).length - s2.length)
    | none => reFindFrom ci re fuel (idx + 1) rest

/-- Worker for `re.split`: cut at each successive leftmost match. -/
def reSplitGo (ci : Bool) (re : RE) (fuel : Nat) :
    Nat → List Char → List String
  | 0, s => [String.mk s]
  | n + 1, s =>
    match reFindFrom ci re fuel 0 s with
    | some (i, len) =>
      if len = 0 then [String.mk s]
      else String.mk (s.take i) :: reSplitGo ci re fuel n (s.drop (i + len))
    | none => [String.mk s]

/-- `re.split(pattern, text)` for the group-free split patterns below. -/
def reSplit (ci : Bool) (re : RE) (text : String) : List String :=
  reSplitGo ci re (engineFuel text.length) (text.length + 1) text.data

/-- Concatenation of a pattern list. -/
def reCat : List RE → RE
  | [] => RE.eps
  | [r] => r
  | r :: rest => RE.seq r (reCat rest)

/-- Priority alternation of a pattern list. -/
def reAlts : List RE → RE
  | [] => RE.eps
  | [r] => r
  | r :: rest => RE.alt r (reAlts rest)

/-! ## The patterns of `linktolead/pdf_parser.py` -/

/-- The apostrophe character as a string. -/
def apos : String := String.singleton (Char.ofNat 39)

/-- Python `\w` over ASCII: letters, digits, underscore. -/
def isWordChar (c : Char) : Bool := c.isAlphanum || c = '_'

/-- The class `[\w\s,\-\&]` of the title and several label patterns. -/
def titleCls (c : Char) : Bool :=
  isWordChar c || isSpaceChar c || c = ',' || c = '-' || c = '&'

/-- The class `[\w\s,\-\&\.]` of the company-name pattern. -/
def nameCls (c : Char) : Bool := titleCls c || c = '.'

/-- The class `[\w\s,\-]` of the location-style patterns. -/
def locCls (c : Char) : Bool :=
  isWordChar c || isSpaceChar c || c = ',' || c = '-'

/-- The class `[\s\S]`: any character. -/
def anyCls (_ : Char) : Bool := true

/-- The class `[\w\.-]` of the website pattern. -/
def urlCls (c : Char) : Bool := isWordChar c || c = '.' || c = '-'

/-- `([\w\s,\-\&]+)\sat\s([\w\s,\-\&]+)` (no flags). -/
def titleRE : RE :=
  reCat [RE.grp 1 (RE.plus false (RE.cls titleCls)), RE.cls isSpaceChar,
    RE.lit "at", RE.cls isSpaceChar,
    RE.grp 2 (RE.plus false (RE.cls titleCls))]

/-- `(?:Location|office)\s*(?:\:|\s)\s*([\w\s,\-]+)`, `re.IGNORECASE`. -/
def locationRE : RE :=
  reCat [reAlts [RE.lit "Location", RE.lit "office"],
    RE.star false (RE.cls isSpaceChar),
    reAlts [RE.lit ":", RE.cls isSpaceChar],
    RE.star false (RE.cls isSpaceChar),
    RE.grp 1 (RE.plus false (RE.cls locCls))]

/-- `(?:About the job|Job description)\s*(?:\:|\n)([\s\S]+?)`
`(?:Responsibilities|Requirements|Qualifications|About the company|$)`,
`re.IGNORECASE`. -/
def descRE : RE :=
  reCat [reAlts [RE.lit "About the job", RE.lit "Job description"],
    RE.star false (RE.cls isSpaceChar),
    reAlts [RE.lit ":", RE.lit "\n"],
    RE.grp 1 (RE.plus true (RE.cls anyCls)),
    reAlts [RE.lit "Responsibilities", RE.lit "Requirements",
      RE.lit "Qualifications", RE.lit "About the company", RE.eol]]

/-- `(?:Responsibilities|What you'll do)\s*(?:\:|\n)([\s\S]+?)`
`(?:Requirements|Qualifications|About the company|Benefits|$)`,
`re.IGNORECASE`. -/
def respRE : RE :=
  reCat [reAlts [RE.lit "Responsibilities",
      RE.lit ("What you" ++ apos ++ "ll do")],
    RE.star false (RE.cls isSpaceChar),
    reAlts [RE.lit ":", RE.lit "\n"],
    RE.grp 1 (RE.plus true (RE.cls anyCls)),
    reAlts [RE.lit "Requirements", RE.lit "Qualifications",
      RE.lit "About the company", RE.lit "Benefits", RE.eol]]

/-- `(?:Requirements|Qualifications)\s*(?:\:|\n)([\s\S]+?)`
`(?:Nice to have|Preferred|Benefits|About the company|$)`,
`re.IGNORECASE`. -/
def reqRE : RE :=
  reCat [reAlts [RE.lit "Requirements", RE.lit "Qualifications"],
    RE.star false (RE.cls isSpaceChar),
    reAlts [RE.lit ":", RE.lit "\n"],
    RE.grp 1 (RE.plus true (RE.cls anyCls)),
    reAlts [RE.lit "Nice to have", RE.lit "Preferred", RE.lit "Benefits",
      RE.lit "About the company", RE.eol]]

/-- `(?:Job Type|Employment Type)\s*(?:\:|\s)\s*([\w\s,\-]+)`,
`re.IGNORECASE`. -/
def jobTypeRE : RE :=
  reCat [reAlts [RE.lit "Job Type", RE.lit "Employment Type"],
    RE.star false (RE.cls isSpaceChar),
    reAlts [RE.lit ":", RE.cls isSpaceChar],
    RE.star false (RE.cls isSpaceChar),
    RE.grp 1 (RE.plus false (RE.cls locCls))]

/-- `(?:Seniority Level)\s*(?:\:|\s)\s*([\w\s,\-]+)`, `re.IGNORECASE`. -/
def seniorityRE : RE :=
  reCat [RE.lit "Seniority Level",
    RE.star false (RE.cls isSpaceChar),
    reAlts [RE.lit ":", RE.cls isSpaceChar],
    RE.star false (RE.cls isSpaceChar),
    RE.grp 1 (RE.plus false (RE.cls locCls))]

/-- The bullet split pattern `•|\n-|\n\*|\n\d+\.` (no flags). -/
def bulletSplitRE : RE :=
  reAlts [RE.lit "•", RE.lit "\n-", RE.lit "\n*",
    reCat [RE.lit "\n", RE.plus false (RE.cls Char.isDigit), RE.lit "."]]

/-- `([\w\s,\-\&\.]+)(?:\son LinkedIn)` (no flags). -/
def companyNameRE : RE :=
  reCat [RE.grp 1 (RE.plus false (RE.cls nameCls)), RE.cls isSpaceChar,
    RE.lit "on LinkedIn"]

/-- `(?:Website|Homepage)\s*(?:\:|\s)\s*(https?://[\w\.-]+)`,
`re.IGNORECASE`. -/
def websiteRE : RE :=
  reCat [reAlts [RE.lit "Website", RE.lit "Homepage"],
    RE.star false (RE.cls isSpaceChar),
    reAlts [RE.lit ":", RE.cls isSpaceChar],
    RE.star false (RE.cls isSpaceChar),
    RE.grp 1 (reCat [RE.lit "http", RE.opt (RE.lit "s"), RE.lit "://",
      RE.plus false (RE.cls urlCls)])]

/-- `(?:Industry)\s*(?:\:|\s)\s*([\w\s,\-\&]+)`, `re.IGNORECASE`. -/
def industryRE : RE :=
  reCat [RE.lit "Industry",
    RE.star false (RE.cls isSpaceChar),
    reAlts [RE.lit ":", RE.cls isSpaceChar],
    RE.star false (RE.cls isSpaceChar),
    RE.grp 1 (RE.plus false (RE.cls titleCls))]

/-- `(?:Company size|Employees)\s*(?:\:|\s)\s*([\w\s,\-\&]+)`,
`re.IGNORECASE`. -/
def sizeRE : RE :=
  reCat [reAlts [RE.lit "Company size", RE.lit "Employees"],
    RE.star false (RE.cls isSpaceChar),
    reAlts [RE.lit ":", RE.cls isSpaceChar],
    RE.star false (RE.cls isSpaceChar),
    RE.grp 1 (RE.plus false (RE.cls titleCls))]

/-- `(?:Headquarters|Location)\s*(?:\:|\s)\s*([\w\s,\-\&]+)`,
`re.IGNORECASE`. -/
def hqRE : RE :=
  reCat [reAlts [RE.lit "Headquarters", RE.lit "Location"],
    RE.star false (RE.cls isSpaceChar),
    reAlts [RE.lit ":", RE.cls isSpaceChar],
    RE.star false (RE.cls isSpaceChar),
    RE.grp 1 (RE.plus false (RE.cls titleCls))]

/-- `(?:About|Overview)\s*(?:\:|\n)([\s\S]+?)(?:Specialties|Founded|$)`,
`re.IGNORECASE`. -/
def companyDescRE : RE :=
  reCat [reAlts [RE.lit "About", RE.lit "Overview"],
    RE.star false (RE.cls isSpaceChar),
    reAlts [RE.lit ":", RE.lit "\n"],
    RE.grp 1 (RE.plus true (RE.cls anyCls)),
    reAlts [RE.lit "Specialties", RE.lit "Founded", RE.eol]]

/-- `(?:Specialties)\s*(?:\:|\n)([\s\S]+?)(?:Website|Industry|$)`,
`re.IGNORECASE`. -/
def specRE : RE :=
  reCat [RE.lit "Specialties",
    RE.star false (RE.cls isSpaceChar),
    reAlts [RE.lit ":", RE.lit "\n"],
    RE.grp 1 (RE.plus true (RE.cls anyCls)),
    reAlts [RE.lit "Website", RE.lit "Industry", RE.eol]]

/-- The specialties split pattern `,|•|\n-|\n\*` (no flags). -/
def specSplitRE : RE :=
  reAlts [RE.lit ",", RE.lit "•", RE.lit "\n-", RE.lit "\n*"]

/-! ## `LinkedInPDFParser._parse_job_details` / `_parse_company_details` -/

/-- `m.group(1).strip()` of a search, `""` when the search fails (the
field keeps its initialized empty value). -/
def searchGroup1Strip (ci : Bool) (re : RE) (text : String) : String :=
  match reSearch ci re text with
  | some caps => pyStrip (groupStr caps 1)
  | none => ""

/-- `[item.strip() for item in re.split(splitRe, block) if item.strip()]`. -/
def splitClean (splitRe : RE) (block : String) : List String :=
  ((reSplit false splitRe block).map pyStrip).filter
    (fun x => x.length != 0)

/-- A list-valued field: search, strip the captured block, split on the
bullet pattern, strip and drop empty items; `[]` when the search fails. -/
def listField (ci : Bool) (re : RE) (splitRe : RE) (text : String) :
    List String :=
  match reSearch ci re text with
  | some caps => splitClean splitRe (pyStrip (groupStr caps 1))
  | none => []

/-- `LinkedInPDFParser._parse_job_details(text)`: the initialized record
with each field replaced by its pattern extraction, in the source's key
order.  Title and company come from one search of `titleRE`. -/
def parseJobDetails (text : String) : Dict :=
  let tm := reSearch false titleRE text
  let title :=
    match tm with
    | some caps => pyStrip (groupStr caps 1)
    | none => ""
  let company :=
    match tm with
    | some caps => pyStrip (groupStr caps 2)
    | none => ""
  [("title", Value.str title),
   ("company", Value.str company),
   ("location", Value.str (searchGroup1Strip true locationRE text)),
   ("description", Value.str (searchGroup1Strip true descRE text)),
   ("responsibilities",
     Value.list (listField true respRE bulletSplitRE text)),
   ("requirements", Value.list (listField true reqRE bulletSplitRE text)),
   ("company_description", Value.str ""),
   ("nice_to_have", Value.list []),
   ("benefits", Value.list []),
   ("job_type", Value.str (searchGroup1Strip true jobTypeRE text)),
   ("seniority_level", Value.str (searchGroup1Strip true seniorityRE text)),
   ("industry", Value.str ""),
   ("employment_type", Value.str ""),
   ("job_functions", Value.list [])]

/-- `LinkedInPDFParser._parse_company_details(text)`. -/
def parseCompanyDetails (text : String) : Dict :=
  [("name", Value.str (searchGroup1Strip false companyNameRE text)),
   ("website", Value.str (searchGroup1Strip true websiteRE text)),
   ("industry", Value.str (searchGroup1Strip true industryRE text)),
   ("company_size", Value.str (searchGroup1Strip true sizeRE text)),
   ("headquarters", Value.str (searchGroup1Strip true hqRE text)),
   ("type", Value.str ""),
   ("founded", Value.str ""),
   ("specialties", Value.list (listField true specRE specSplitRE text)),
   ("description", Value.str (searchGroup1Strip true companyDescRE text))]

/-- The message of the `ValueError` raised by `parse_job_pdf`. -/
def jobEssentialError : String :=
  "Could not extract essential job information (title/company) from the PDF"

/-- The message of the `ValueError` raised by `parse_company_pdf`. -/
def companyEssentialError : String :=
  "Could not extract company name from the PDF"

/-- The text-level part of `LinkedInPDFParser.parse_job_pdf`: parse the
extracted text, raise `ValueError` when title or company is not truthy,
otherwise record the source path and return the record.  (The
file-existence check and PDF text extraction precede this and are outside
the model.) -/
def parse_job_text (text pdf_path : String) : Except String Dict :=
  let job_data := parseJobDetails text
  if truthy? job_data "title" = false ∨ truthy? job_data "company" = false
  then Except.error jobEssentialError
  else Except.ok (dinsert job_data "source" (Value.str pdf_path))

/-- The text-level part of `LinkedInPDFParser.parse_company_pdf`. -/
def parse_company_text (text pdf_path : String) : Except String Dict :=
  let company_data := parseCompanyDetails text
  if truthy? company_data "name" = false
  then Except.error companyEssentialError
  else Except.ok (dinsert company_data "source" (Value.str pdf_path))

/-! ## Remaining definitions used by the theorems -/

/-- Every value in the dictionary is truthy (no empty string or empty
list property values). -/
def AllTruthy (d : Dict) : Prop :=
  ∀ k v, lookup? d k = some v → v.isTruthy = true

/-- The end-to-end scenario text of the specification. -/
def c6Text : String :=
  "Senior Engineer at Acme Corp\nLocation: Remote\nAbout the job: Build things.\nResponsibilities: • Write code\n• Ship it\nRequirements: 5 years experience"

/-! ## Dictionary lemmas -/

theorem lookup?_dinsert_self (d : Dict) (k : String) (v : Value) :
    lookup? (dinsert d k v) k = some v := by
  induction d with
  | nil => simp [dinsert, lookup?]
  | cons hd tl ih =>
    obtain ⟨k', v'⟩ := hd
    by_cases h : k' = k
    · subst h
      simp [dinsert, lookup?]
    · simp [dinsert, lookup?, h, ih]

theorem lookup?_dinsert_ne (d : Dict) (k k' : String) (v : Value)
    (h : k' ≠ k) : lookup? (dinsert d k v) k' = lookup? d k' := by
  induction d with
  | nil => simp [dinsert, lookup?, Ne.symm h]
  | cons hd tl ih =>
    obtain ⟨k₀, v₀⟩ := hd
    by_cases h0 : k₀ = k
    · subst h0
      simp [dinsert, lookup?, Ne.symm h]
    · by_cases h1 : k₀ = k'
      · subst h1
        simp [dinsert, lookup?, h0]
      · simp [dinsert, lookup?, h0, h1, ih]

theorem hasKey_dinsert_of (d : Dict) (k k' : String) (v : Value)
    (h : hasKey d k' = true) : hasKey (dinsert d k v) k' = true := by
  by_cases hk : k' = k
  · subst hk
    simp [hasKey, lookup?_dinsert_self]
  · simpa [hasKey, lookup?_dinsert_ne d k k' v hk] using h

theorem truthy?_of_lookup (d : Dict) (k : String) (v : Value)
    (h : lookup? d k = some v) : truthy? d k = v.isTruthy := by
  simp [truthy?, h]

theorem truthy?_of_none (d : Dict) (k : String)
    (h : lookup? d k = none) : truthy? d k = false := by
  simp [truthy?, h]

theorem truthy?_eq_true (d : Dict) (k : String) (h : truthy? d k = true) :
    ∃ v, lookup? d k = some v ∧ v.isTruthy = true := by
  unfold truthy? at h
  cases h' : lookup? d k with
  | none => rw [h'] at h; simp at h
  | some v => rw [h'] at h; exact ⟨v, rfl, h⟩

theorem truthy?_of_hasKey_false (d : Dict) (k : String)
    (h : hasKey d k = false) : truthy? d k = false := by
  unfold hasKey at h
  cases h' : lookup? d k with
  | none => exact truthy?_of_none d k h'
  | some v => rw [h'] at h; simp at h

theorem hasKey_of_lookup (d : Dict) (k : String) (v : Value)
    (h : lookup? d k = some v) : hasKey d k = true := by
  simp [hasKey, h]

theorem lookup?_of_hasKey_false (d : Dict) (k : String)
    (h : hasKey d k = false) : lookup? d k = none := by
  unfold hasKey at h
  cases h' : lookup? d k with
  | none => rfl
  | some v => rw [h'] at h; simp at h

/-! ## Step lemmas for the mapper loops -/

theorem lookup?_mapStep_ne (data props : Dict) (hf sf k : String)
    (h : hf ≠ k) : lookup? (mapStep data props hf sf) k = lookup? props k := by
  unfold mapStep
  cases hd : lookup? data sf with
  | none => rfl
  | some v =>
    by_cases ht : v.isTruthy = true
    · simp [ht, lookup?_dinsert_ne props hf k v (Ne.symm h)]
    · simp [ht]

theorem mapStep_of_truthy (data props : Dict) (hf sf : String) (v : Value)
    (h : lookup? data sf = some v) (ht : v.isTruthy = true) :
    mapStep data props hf sf = dinsert props hf v := by
  simp [mapStep, h, ht]

theorem mapStep_of_not_truthy (data props : Dict) (hf sf : String)
    (h : truthy? data sf = false) : mapStep data props hf sf = props := by
  unfold mapStep
  cases hd : lookup? data sf with
  | none => rfl
  | some v =>
    have := truthy?_of_lookup data sf v hd
    rw [h] at this
    simp [← this]

theorem lookup?_mapFields_preserve (data : Dict) (k : String) :
    ∀ (mapping : List (String × String)) (props : Dict),
      (∀ p ∈ mapping, p.1 ≠ k) →
      lookup? (mapFields mapping data props) k = lookup? props k := by
  intro mapping
  induction mapping with
  | nil => intro props _; rfl
  | cons hd tl ih =>
    intro props hne
    obtain ⟨hf, sf⟩ := hd
    have hhf : hf ≠ k := hne (hf, sf) (List.mem_cons_self _ _)
    have htl : ∀ p ∈ tl, p.1 ≠ k := fun p hp => hne p (List.mem_cons_of_mem _ hp)
    calc lookup? (mapFields tl data (mapStep data props hf sf)) k
        = lookup? (mapStep data props hf sf) k := ih _ htl
      _ = lookup? props k := lookup?_mapStep_ne data props hf sf k hhf

theorem lookup?_mapFields_none (data : Dict) (k : String) :
    ∀ (mapping : List (String × String)) (props : Dict),
      (∀ p ∈ mapping, p.1 = k → truthy? data p.2 = false) →
      lookup? props k = none →
      lookup? (mapFields mapping data props) k = none := by
  intro mapping
  induction mapping with
  | nil => intro props _ h; exact h
  | cons hd tl ih =>
    intro props hcond hnone
    obtain ⟨hf, sf⟩ := hd
    have htl : ∀ p ∈ tl, p.1 = k → truthy? data p.2 = false :=
      fun p hp => hcond p (List.mem_cons_of_mem _ hp)
    refine ih _ htl ?_
    by_cases hhf : hf = k
    · rw [mapStep_of_not_truthy data props hf sf (hcond (hf, sf) (List.mem_cons_self _ _) hhf)]
      exact hnone
    · rw [lookup?_mapStep_ne data props hf sf k hhf]
      exact hnone

theorem lookup?_mapFields_mem (data : Dict) :
    ∀ (mapping : List (String × String)) (props : Dict) (hf sf : String),
      (hf, sf) ∈ mapping → (mapping.map Prod.fst).Nodup →
      truthy? data sf = true →
      lookup? (mapFields mapping data props) hf = lookup? data sf := by
  intro mapping
  induction mapping with
  | nil => intro props hf sf hmem; simp at hmem
  | cons hd tl ih =>
    intro props hf sf hmem hnodup ht
    obtain ⟨hf₀, sf₀⟩ := hd
    rcases List.mem_cons.mp hmem with heq | htail
    · obtain ⟨rfl, rfl⟩ := Prod.mk.inj heq
      obtain ⟨v, hv, hvt⟩ := truthy?_eq_true data sf ht
      have hrest : ∀ p ∈ tl, p.1 ≠ hf := by
        intro p hp hpk
        have hmm : hf ∈ List.map Prod.fst tl :=
          hpk ▸ List.mem_map_of_mem Prod.fst hp
        exact (List.nodup_cons.mp hnodup).1 hmm
      have hrw : mapStep data props hf sf = dinsert props hf v :=
        mapStep_of_truthy data props hf sf v hv hvt
      calc lookup? (mapFields tl data (mapStep data props hf sf)) hf
          = lookup? (mapStep data props hf sf) hf :=
            lookup?_mapFields_preserve data hf tl _ hrest
        _ = some v := by rw [hrw]; exact lookup?_dinsert_self props hf v
        _ = lookup? data sf := hv.symm
    · exact ih _ hf sf htail (List.nodup_cons.mp hnodup).2 ht

/-! ## Step lemmas for the defaults passes -/

theorem lookup?_defStep_of_hasKey (pfx : String) (excluded : List String)
    (props : Dict) (k : String) (v : Value) (k' : String)
    (h : hasKey props k' = true) :
    lookup? (defStep pfx excluded props k v) k' = lookup? props k' := by
  unfold defStep
  split_ifs with h1 h2
  · rfl
  · have hne : dropPfx pfx k ≠ k' := by
      intro heq
      rw [heq] at h2
      exact h2 h
    exact lookup?_dinsert_ne props _ k' v (Ne.symm hne)
  · rfl

theorem lookup?_defStep_none (pfx : String) (excluded : List String)
    (props : Dict) (k : String) (v : Value) (k' : String)
    (hn : lookup? props k' = none)
    (himp : pyStartsWith k pfx = true → k ∉ excluded → v.isTruthy = true →
      dropPfx pfx k ≠ k') :
    lookup? (defStep pfx excluded props k v) k' = none := by
  unfold defStep
  split_ifs with h1 h2
  · exact hn
  · rw [lookup?_dinsert_ne props _ k' v (Ne.symm (himp h1.1 h1.2.1 h1.2.2))]
    exact hn
  · exact hn

theorem lookup?_defaultsPass_of_hasKey (pfx : String)
    (excluded : List String) (k' : String) :
    ∀ (defaults : Dict) (props : Dict), hasKey props k' = true →
      lookup? (defaultsPass pfx excluded defaults props) k' =
        lookup? props k' := by
  intro defaults
  induction defaults with
  | nil => intro props _; rfl
  | cons hd tl ih =>
    intro props h
    obtain ⟨k, v⟩ := hd
    have hstep := lookup?_defStep_of_hasKey pfx excluded props k v k' h
    have hkey : hasKey (defStep pfx excluded props k v) k' = true := by
      simpa [hasKey, hstep] using h
    calc lookup? (defaultsPass pfx excluded tl (defStep pfx excluded props k v)) k'
        = lookup? (defStep pfx excluded props k v) k' := ih _ hkey
      _ = lookup? props k' := hstep

theorem lookup?_defaultsPass_none (pfx : String) (excluded : List String)
    (k' : String) :
    ∀ (defaults : Dict) (props : Dict),
      (∀ p ∈ defaults, pyStartsWith p.1 pfx = true → p.1 ∉ excluded →
        (p.2).isTruthy = true → dropPfx pfx p.1 ≠ k') →
      lookup? props k' = none →
      lookup? (defaultsPass pfx excluded defaults props) k' = none := by
  intro defaults
  induction defaults with
  | nil => intro props _ h; exact h
  | cons hd tl ih =>
    intro props hcond hnone
    obtain ⟨k, v⟩ := hd
    refine ih _ (fun p hp => hcond p (List.mem_cons_of_mem _ hp)) ?_
    exact lookup?_defStep_none pfx excluded props k v k' hnone
      (hcond (k, v) (List.mem_cons_self _ _))

/-! ## Lemmas for the well-known defaults and the fallbacks -/

theorem lookup?_setFromDefault_ne (props defaults : Dict)
    (dkey hkey k : String) (h : k ≠ hkey) :
    lookup? (setFromDefault props defaults dkey hkey) k = lookup? props k := by
  unfold setFromDefault
  cases hd : lookup? defaults dkey with
  | none => rfl
  | some v =>
    by_cases ht : v.isTruthy = true
    · simp [ht, lookup?_dinsert_ne props hkey k v h]
    · simp [ht]

theorem lookup?_setFromDefault_self (props defaults : Dict)
    (dkey hkey : String) (v : Value) (h : lookup? defaults dkey = some v)
    (ht : v.isTruthy = true) :
    lookup? (setFromDefault props defaults dkey hkey) hkey = some v := by
  simp [setFromDefault, h, ht, lookup?_dinsert_self]

theorem lookup?_companyNameFallback_of_hasKey (data props : Dict)
    (k : String) (h : hasKey props k = true) :
    lookup? (companyNameFallback data props) k = lookup? props k := by
  unfold companyNameFallback
  split_ifs with h1
  · rfl
  · cases hd : lookup? data "company_name" with
    | none => rfl
    | some v =>
      have hne : k ≠ "name" := by
        intro heq
        rw [heq] at h
        rw [h] at h1
        simp at h1
      simp [lookup?_dinsert_ne props "name" k v hne]

theorem lookup?_dealnameFallback_ne (data props : Dict) (k : String)
    (h : k ≠ "dealname") :
    lookup? (dealnameFallback data props) k = lookup? props k := by
  unfold dealnameFallback
  split_ifs with h1
  · rfl
  · exact lookup?_dinsert_ne props "dealname" k _ h

theorem lookup?_dealnameFallback_of_hasKey (data props : Dict) (k : String)
    (h : hasKey props k = true) :
    lookup? (dealnameFallback data props) k = lookup? props k := by
  by_cases hk : k = "dealname"
  · subst hk
    unfold dealnameFallback
    rw [if_pos h]
  · exact lookup?_dealnameFallback_ne data props k hk

/-! ## Truthiness invariants of the mapper passes -/

theorem allTruthy_nil : AllTruthy [] := by
  intro k v h
  simp [lookup?] at h

theorem allTruthy_dinsert (d : Dict) (k : String) (v : Value)
    (hd : AllTruthy d) (hv : v.isTruthy = true) :
    AllTruthy (dinsert d k v) := by
  intro k' v' h
  by_cases hk : k' = k
  · subst hk
    rw [lookup?_dinsert_self] at h
    cases h
    exact hv
  · rw [lookup?_dinsert_ne d k k' v hk] at h
    exact hd k' v' h

theorem allTruthy_mapStep (data props : Dict) (hf sf : String)
    (hp : AllTruthy props) : AllTruthy (mapStep data props hf sf) := by
  unfold mapStep
  cases hd : lookup? data sf with
  | none => exact hp
  | some v =>
    by_cases ht : v.isTruthy = true
    · simpa [ht] using allTruthy_dinsert props hf v hp ht
    · simpa [ht] using hp

theorem allTruthy_mapFields (data : Dict) :
    ∀ (mapping : List (String × String)) (props : Dict),
      AllTruthy props → AllTruthy (mapFields mapping data props) := by
  intro mapping
  induction mapping with
  | nil => intro props hp; exact hp
  | cons hd tl ih =>
    intro props hp
    obtain ⟨hf, sf⟩ := hd
    exact ih _ (allTruthy_mapStep data props hf sf hp)

theorem allTruthy_defStep (pfx : String) (excluded : List String)
    (props : Dict) (k : String) (v : Value) (hp : AllTruthy props) :
    AllTruthy (defStep pfx excluded props k v) := by
  unfold defStep
  split_ifs with h1 h2
  · exact hp
  · exact allTruthy_dinsert props _ v hp h1.2.2
  · exact hp

theorem allTruthy_defaultsPass (pfx : String) (excluded : List String) :
    ∀ (defaults : Dict) (props : Dict),
      AllTruthy props →
      AllTruthy (defaultsPass pfx excluded defaults props) := by
  intro defaults
  induction defaults with
  | nil => intro props hp; exact hp
  | cons hd tl ih =>
    intro props hp
    obtain ⟨k, v⟩ := hd
    exact ih _ (allTruthy_defStep pfx excluded props k v hp)

theorem allTruthy_setFromDefault (props defaults : Dict)
    (dkey hkey : String) (hp : AllTruthy props) :
    AllTruthy (setFromDefault props defaults dkey hkey) := by
  unfold setFromDefault
  cases hd : lookup? defaults dkey with
  | none => exact hp
  | some v =>
    by_cases ht : v.isTruthy = true
    · simpa [ht] using allTruthy_dinsert props hkey v hp ht
    · simpa [ht] using hp

theorem synthDealname_truthy (data : Dict) :
    (Value.str (synthDealname data)).isTruthy = true := by
  show ((synthDealname data).length != 0) = true
  rw [bne_iff_ne]
  unfold synthDealname
  rw [String.length_append, String.length_append]
  have h4 : (" at " : String).length = 4 := rfl
  omega

theorem allTruthy_dealnameFallback (data props : Dict)
    (hp : AllTruthy props) : AllTruthy (dealnameFallback data props) := by
  unfold dealnameFallback
  split_ifs with h1
  · exact hp
  · exact allTruthy_dinsert props "dealname" _ hp (synthDealname_truthy data)

/-! ## Composite preservation lemmas for the two mappers -/

theorem lookup?_companyTail_of_hasKey (data defaults props : Dict)
    (k : String) (hk : hasKey props k = true) :
    lookup? (companyNameFallback data
      (defaultsPass "company_" [] defaults props)) k = lookup? props k := by
  have e1 : lookup? (defaultsPass "company_" [] defaults props) k =
      lookup? props k :=
    lookup?_defaultsPass_of_hasKey "company_" [] k defaults props hk
  have hk1 : hasKey (defaultsPass "company_" [] defaults props) k = true := by
    show (lookup? _ k).isSome = true
    rw [e1]
    exact hk
  exact (lookup?_companyNameFallback_of_hasKey data _ k hk1).trans e1

theorem lookup?_dealTail_of_hasKey (data defaults props : Dict) (k : String)
    (hne : k ≠ "dealstage" ∧ k ≠ "pipeline" ∧ k ≠ "hubspot_owner_id")
    (hk : hasKey props k = true) :
    lookup? (dealnameFallback data
      (defaultsPass "deal_" dealWellKnownKeys defaults
        (setFromDefault
          (setFromDefault
            (setFromDefault props defaults "deal_stage_id" "dealstage")
            defaults "deal_pipeline_id" "pipeline")
          defaults "deal_owner_id" "hubspot_owner_id"))) k =
      lookup? props k := by
  have e1 : lookup? (setFromDefault props defaults "deal_stage_id"
      "dealstage") k = lookup? props k :=
    lookup?_setFromDefault_ne props defaults _ _ k hne.1
  have e2 : lookup? (setFromDefault (setFromDefault props defaults
      "deal_stage_id" "dealstage") defaults "deal_pipeline_id" "pipeline") k =
      lookup? props k :=
    (lookup?_setFromDefault_ne _ defaults _ _ k hne.2.1).trans e1
  have e3 : lookup? (setFromDefault (setFromDefault (setFromDefault props
      defaults "deal_stage_id" "dealstage") defaults "deal_pipeline_id"
      "pipeline") defaults "deal_owner_id" "hubspot_owner_id") k =
      lookup? props k :=
    (lookup?_setFromDefault_ne _ defaults _ _ k hne.2.2).trans e2
  have hk3 : hasKey (setFromDefault (setFromDefault (setFromDefault props
      defaults "deal_stage_id" "dealstage") defaults "deal_pipeline_id"
      "pipeline") defaults "deal_owner_id" "hubspot_owner_id") k = true := by
    show (lookup? _ k).isSome = true
    rw [e3]
    exact hk
  have e4 : lookup? (defaultsPass "deal_" dealWellKnownKeys defaults
      (setFromDefault (setFromDefault (setFromDefault props defaults
        "deal_stage_id" "dealstage") defaults "deal_pipeline_id" "pipeline")
        defaults "deal_owner_id" "hubspot_owner_id")) k = lookup? props k :=
    (lookup?_defaultsPass_of_hasKey "deal_" dealWellKnownKeys k defaults _
      hk3).trans e3
  have hk4 : hasKey (defaultsPass "deal_" dealWellKnownKeys defaults
      (setFromDefault (setFromDefault (setFromDefault props defaults
        "deal_stage_id" "dealstage") defaults "deal_pipeline_id" "pipeline")
        defaults "deal_owner_id" "hubspot_owner_id")) k = true := by
    show (lookup? _ k).isSome = true
    rw [e4]
    exact hk
  exact (lookup?_dealnameFallback_of_hasKey data _ k hk4).trans e4

/-! ## Claim theorems -/

/-- Claim C1: extracted data always wins.  For every destination field
that receives a value from a present, non-empty source field, both
mappers output the record's own value at that destination, whatever the
defaults contain (well-known and generic prefixed defaults included); and
the generic prefixed-defaults pass only ever writes destination fields
that are not already set. -/
theorem extracted_data_precedence (data defaults : Dict) (hf sf : String) :
    ((hf, sf) ∈ COMPANY_FIELD_MAPPING → truthy? data sf = true →
      lookup? (get_company_properties data defaults) hf = lookup? data sf)
    ∧ ((hf, sf) ∈ DEAL_FIELD_MAPPING → truthy? data sf = true →
      lookup? (get_deal_properties data defaults) hf = lookup? data sf)
    ∧ (∀ (pfx : String) (excluded : List String) (props : Dict) (k : String),
        hasKey props k = true →
        lookup? (defaultsPass pfx excluded defaults props) k =
          lookup? props k) := by
  refine ⟨?_, ?_, ?_⟩
  · intro hmem ht
    have hnodup : (COMPANY_FIELD_MAPPING.map Prod.fst).Nodup := by decide
    have h0 : lookup? (mapFields COMPANY_FIELD_MAPPING data []) hf =
        lookup? data sf :=
      lookup?_mapFields_mem data COMPANY_FIELD_MAPPING [] hf sf hmem hnodup ht
    obtain ⟨v, hv, hvt⟩ := truthy?_eq_true data sf ht
    have hk0 : hasKey (mapFields COMPANY_FIELD_MAPPING data []) hf = true :=
      hasKey_of_lookup _ _ v (h0.trans hv)
    exact (lookup?_companyTail_of_hasKey data defaults _ hf hk0).trans h0
  · intro hmem ht
    have hnodup : (DEAL_FIELD_MAPPING.map Prod.fst).Nodup := by decide
    have h0 : lookup? (mapFields DEAL_FIELD_MAPPING data []) hf =
        lookup? data sf :=
      lookup?_mapFields_mem data DEAL_FIELD_MAPPING [] hf sf hmem hnodup ht
    obtain ⟨v, hv, hvt⟩ := truthy?_eq_true data sf ht
    have hk0 : hasKey (mapFields DEAL_FIELD_MAPPING data []) hf = true :=
      hasKey_of_lookup _ _ v (h0.trans hv)
    have hne : hf ≠ "dealstage" ∧ hf ≠ "pipeline" ∧
        hf ≠ "hubspot_owner_id" := by
      have hall : ∀ p ∈ DEAL_FIELD_MAPPING, p.1 ≠ "dealstage" ∧
          p.1 ≠ "pipeline" ∧ p.1 ≠ "hubspot_owner_id" := by decide
      exact hall (hf, sf) hmem
    exact (lookup?_dealTail_of_hasKey data defaults _ hf hne hk0).trans h0
  · intro pfx excluded props k hk
    exact lookup?_defaultsPass_of_hasKey pfx excluded k defaults props hk

/-- Witness for C1: a record value `"Real"` beats the simultaneously
present per-field and generic `company_` defaults, and the deal mapper
keeps the record's own `job_title` as `dealname` despite a
`deal_dealname` default. -/
theorem extracted_data_precedence_witness :
    lookup? (get_company_properties [("company_name", Value.str "Real")]
      [("company_name", Value.str "Def"), ("company_phone", Value.str "1")])
      "name" = some (Value.str "Real")
    ∧ lookup? (get_deal_properties [("job_title", Value.str "T")]
      [("deal_dealname", Value.str "D"), ("deal_stage_id", Value.str "S")])
      "dealname" = some (Value.str "T") :=
  ⟨((extracted_data_precedence [("company_name", Value.str "Real")]
      [("company_name", Value.str "Def"), ("company_phone", Value.str "1")]
      "name" "company_name").1 (by decide) (by decide)).trans (by decide),
   ((extracted_data_precedence [("job_title", Value.str "T")]
      [("deal_dealname", Value.str "D"), ("deal_stage_id", Value.str "S")]
      "dealname" "job_title").2.1 (by decide) (by decide)).trans (by decide)⟩

theorem lookup?_crossFill_ne (j c : Dict) (jkey ckey k : String)
    (h : k ≠ jkey) : lookup? (crossFill j c jkey ckey) k = lookup? j k := by
  unfold crossFill
  split_ifs with h1
  · rfl
  · cases hc : lookup? c ckey with
    | none => rfl
    | some v =>
      by_cases ht : v.isTruthy = true
      · simp [ht, lookup?_dinsert_ne j jkey k v h]
      · simp [ht]

theorem truthy?_crossFill_ne (j c : Dict) (jkey ckey k : String)
    (h : k ≠ jkey) : truthy? (crossFill j c jkey ckey) k = truthy? j k := by
  unfold truthy?
  rw [lookup?_crossFill_ne j c jkey ckey k h]

theorem lookup?_crossFill_self (j c : Dict) (jkey ckey : String) :
    lookup? (crossFill j c jkey ckey) jkey =
      (if truthy? j jkey = false ∧ truthy? c ckey = true
       then lookup? c ckey else lookup? j jkey) := by
  unfold crossFill
  by_cases h1 : truthy? j jkey = true
  · rw [if_pos h1, if_neg (by simp [h1])]
  · have h1f : truthy? j jkey = false := by
      cases hb : truthy? j jkey
      · rfl
      · exact absurd hb h1
    rw [if_neg h1]
    cases hc : lookup? c ckey with
    | none =>
      have hcf : truthy? c ckey = false := truthy?_of_none c ckey hc
      show lookup? j jkey = _
      rw [if_neg (by simp [hcf])]
    | some v =>
      by_cases hvt : v.isTruthy = true
      · have hct : truthy? c ckey = true :=
          (truthy?_of_lookup c ckey v hc).trans hvt
        show lookup? (if v.isTruthy = true then dinsert j jkey v else j)
          jkey = _
        rw [if_pos hvt, if_pos ⟨h1f, hct⟩]
        exact lookup?_dinsert_self j jkey v
      · have hcf : truthy? c ckey = false := by
          rw [truthy?_of_lookup c ckey v hc]
          cases hb : v.isTruthy
          · rfl
          · exact absurd hb hvt
        show lookup? (if v.isTruthy = true then dinsert j jkey v else j)
          jkey = _
        rw [if_neg hvt, if_neg (by simp [hcf])]

/-- Claim C2: `combine_data` cross-fills company → job only.  The
combined record's company component is the input company record; the
job's `company` (resp. `industry`) equals the company's `name`
(resp. `industry`) exactly in the case where the job field was not
truthy and the company field was, and is otherwise unchanged; every
other job field is unchanged. -/
theorem combine_data_crossfill (job_data company_data : Dict) :
    (combine_data job_data company_data).company = company_data
    ∧ lookup? (combine_data job_data company_data).job "company" =
        (if truthy? job_data "company" = false ∧
            truthy? company_data "name" = true
         then lookup? company_data "name" else lookup? job_data "company")
    ∧ lookup? (combine_data job_data company_data).job "industry" =
        (if truthy? job_data "industry" = false ∧
            truthy? company_data "industry" = true
         then lookup? company_data "industry" else lookup? job_data "industry")
    ∧ (∀ k, k ≠ "company" → k ≠ "industry" →
        lookup? (combine_data job_data company_data).job k =
          lookup? job_data k) := by
  refine ⟨rfl, ?_, ?_, ?_⟩
  · show lookup? (crossFill (crossFill job_data company_data "company" "name")
      company_data "industry" "industry") "company" = _
    rw [lookup?_crossFill_ne _ company_data "industry" "industry" "company"
      (by decide)]
    exact lookup?_crossFill_self job_data company_data "company" "name"
  · show lookup? (crossFill (crossFill job_data company_data "company" "name")
      company_data "industry" "industry") "industry" = _
    rw [lookup?_crossFill_self _ company_data "industry" "industry",
      truthy?_crossFill_ne job_data company_data "company" "name" "industry"
        (by decide),
      lookup?_crossFill_ne job_data company_data "company" "name" "industry"
        (by decide)]
  · intro k h1 h2
    show lookup? (crossFill (crossFill job_data company_data "company" "name")
      company_data "industry" "industry") k = _
    rw [lookup?_crossFill_ne _ company_data "industry" "industry" k h2,
      lookup?_crossFill_ne job_data company_data "company" "name" k h1]

/-- Witness for C2, the specification's own example: an empty job
`company` is filled from the company `name` and a job `title` is left
unchanged. -/
theorem combine_data_crossfill_witness :
    lookup? (combine_data [("company", Value.str ""), ("title", Value.str "T")]
      [("name", Value.str "Acme"), ("industry", Value.str "Tech")]).job
      "company" = some (Value.str "Acme")
    ∧ lookup? (combine_data
      [("company", Value.str ""), ("title", Value.str "T")]
      [("name", Value.str "Acme"), ("industry", Value.str "Tech")]).job
      "title" = some (Value.str "T") :=
  ⟨((combine_data_crossfill
      [("company", Value.str ""), ("title", Value.str "T")]
      [("name", Value.str "Acme"), ("industry", Value.str "Tech")]).2.1).trans
      (by decide),
   ((combine_data_crossfill
      [("company", Value.str ""), ("title", Value.str "T")]
      [("name", Value.str "Acme"), ("industry", Value.str "Tech")]).2.2.2
      "title" (by decide) (by decide))⟩

/-- Counterexample to claim C3 as stated: with `company_name` present but
empty in the data and no defaults, `get_company_properties` writes the
empty string through as the `name` property, so the output does contain
an empty-string value. -/
theorem no_empty_property_values_cex :
    get_company_properties [("company_name", Value.str "")] [] =
      [("name", Value.str "")] := by decide

/-- Claim C3, amended: `get_deal_properties` never outputs an
empty-string or empty-list value; `get_company_properties` never does so
either, except that its name fallback may copy a present-but-empty
`company_name` value from the data into the `name` property. -/
theorem no_empty_property_values (data defaults : Dict) :
    (∀ k v, lookup? (get_deal_properties data defaults) k = some v →
      v.isTruthy = true)
    ∧ (∀ k v, lookup? (get_company_properties data defaults) k = some v →
      v.isTruthy = true ∨
        (k = "name" ∧ lookup? data "company_name" = some v)) := by
  constructor
  · exact allTruthy_dealnameFallback data _
      (allTruthy_defaultsPass "deal_" dealWellKnownKeys defaults _
        (allTruthy_setFromDefault _ defaults _ _
          (allTruthy_setFromDefault _ defaults _ _
            (allTruthy_setFromDefault _ defaults _ _
              (allTruthy_mapFields data DEAL_FIELD_MAPPING [] allTruthy_nil)))))
  · have hAll : AllTruthy (defaultsPass "company_" [] defaults
        (mapFields COMPANY_FIELD_MAPPING data [])) :=
      allTruthy_defaultsPass "company_" [] defaults _
        (allTruthy_mapFields data COMPANY_FIELD_MAPPING [] allTruthy_nil)
    intro k v h
    unfold get_company_properties companyNameFallback at h
    split_ifs at h with h1
    · exact Or.inl (hAll k v h)
    · cases hd : lookup? data "company_name" with
      | none =>
        rw [hd] at h
        exact Or.inl (hAll k v h)
      | some v₀ =>
        rw [hd] at h
        by_cases hk : k = "name"
        · subst hk
          rw [lookup?_dinsert_self] at h
          exact Or.inr ⟨rfl, h⟩
        · rw [lookup?_dinsert_ne _ "name" k v₀ hk] at h
          exact Or.inl (hAll k v h)

/-- Witness for C3: the deal-name value produced on a minimal record is a
non-empty property value. -/
theorem no_empty_property_values_witness :
    (Value.str "T").isTruthy = true :=
  (no_empty_property_values [("job_title", Value.str "T")] []).1
    "dealname" (Value.str "T") (by decide)

/-- Counterexample to claim C4 as stated: with `job_title` and
`company_name` both present but empty and no defaults, the synthesized
deal name is `" at "`, not `"Unknown Position at Unknown Company"` — the
`Unknown` literals substitute only for absent keys
(`data.get(key, default)`), not for empty values. -/
theorem dealname_synthesis_cex :
    get_deal_properties
      [("job_title", Value.str ""), ("company_name", Value.str "")] [] =
      [("dealname", Value.str " at ")] := by decide

/-- Claim C4, amended: when no deal name was set (job title not truthy
in the data, and no truthy `deal_dealname` generic default), the deal
mapper synthesizes `"<job title> at <company name>"` where each side is
taken from the data when its key is present (even if empty) and the
literals `"Unknown Position"` / `"Unknown Company"` substitute only for
absent keys; in particular, when both keys are absent the deal name is
exactly `"Unknown Position at Unknown Company"`. -/
theorem dealname_synthesis (data defaults : Dict)
    (hdef : ∀ p ∈ defaults, pyStartsWith p.1 "deal_" = true →
      p.1 ∉ dealWellKnownKeys → (p.2).isTruthy = true →
      dropPfx "deal_" p.1 ≠ "dealname") :
    (truthy? data "job_title" = false →
      lookup? (get_deal_properties data defaults) "dealname" =
        some (Value.str (synthDealname data)))
    ∧ (hasKey data "job_title" = false → hasKey data "company_name" = false →
      lookup? (get_deal_properties data defaults) "dealname" =
        some (Value.str "Unknown Position at Unknown Company")) := by
  have main : truthy? data "job_title" = false →
      lookup? (get_deal_properties data defaults) "dealname" =
        some (Value.str (synthDealname data)) := by
    intro hjt
    have hcond : ∀ p ∈ DEAL_FIELD_MAPPING, p.1 = "dealname" →
        truthy? data p.2 = false := by
      intro p hp hpk
      simp only [DEAL_FIELD_MAPPING, List.mem_cons, List.not_mem_nil,
        or_false] at hp
      rcases hp with rfl | rfl | rfl | rfl | rfl | rfl | rfl | rfl | rfl | rfl
      · exact hjt
      all_goals simp at hpk
    have h0 : lookup? (mapFields DEAL_FIELD_MAPPING data []) "dealname" =
        none :=
      lookup?_mapFields_none data "dealname" DEAL_FIELD_MAPPING [] hcond rfl
    have e1 : lookup? (setFromDefault (mapFields DEAL_FIELD_MAPPING data [])
        defaults "deal_stage_id" "dealstage") "dealname" = none :=
      (lookup?_setFromDefault_ne _ defaults _ _ "dealname" (by decide)).trans
        h0
    have e2 : lookup? (setFromDefault (setFromDefault
        (mapFields DEAL_FIELD_MAPPING data []) defaults "deal_stage_id"
        "dealstage") defaults "deal_pipeline_id" "pipeline") "dealname" =
        none :=
      (lookup?_setFromDefault_ne _ defaults _ _ "dealname" (by decide)).trans
        e1
    have e3 : lookup? (setFromDefault (setFromDefault (setFromDefault
        (mapFields DEAL_FIELD_MAPPING data []) defaults "deal_stage_id"
        "dealstage") defaults "deal_pipeline_id" "pipeline") defaults
        "deal_owner_id" "hubspot_owner_id") "dealname" = none :=
      (lookup?_setFromDefault_ne _ defaults _ _ "dealname" (by decide)).trans
        e2
    have e4 : lookup? (defaultsPass "deal_" dealWellKnownKeys defaults
        (setFromDefault (setFromDefault (setFromDefault
          (mapFields DEAL_FIELD_MAPPING data []) defaults "deal_stage_id"
          "dealstage") defaults "deal_pipeline_id" "pipeline") defaults
          "deal_owner_id" "hubspot_owner_id")) "dealname" = none :=
      lookup?_defaultsPass_none "deal_" dealWellKnownKeys "dealname" defaults
        _ hdef e3
    have hk4 : hasKey (defaultsPass "deal_" dealWellKnownKeys defaults
        (setFromDefault (setFromDefault (setFromDefault
          (mapFields DEAL_FIELD_MAPPING data []) defaults "deal_stage_id"
          "dealstage") defaults "deal_pipeline_id" "pipeline") defaults
          "deal_owner_id" "hubspot_owner_id")) "dealname" = false := by
      show (lookup? _ "dealname").isSome = false
      rw [e4]
      rfl
    show lookup? (dealnameFallback data _) "dealname" = _
    unfold dealnameFallback
    rw [if_neg (by rw [hk4]; exact Bool.false_ne_true)]
    exact lookup?_dinsert_self _ "dealname" _
  refine ⟨main, ?_⟩
  intro hjt hcn
  have hsynth : synthDealname data = "Unknown Position at Unknown Company" := by
    unfold synthDealname pyGet
    rw [lookup?_of_hasKey_false data _ hjt, lookup?_of_hasKey_false data _ hcn]
    rfl
  rw [main (truthy?_of_hasKey_false data _ hjt), hsynth]

/-- Witness for C4: both identity keys absent yields the fully
synthesized deal name. -/
theorem dealname_synthesis_witness :
    lookup? (get_deal_properties [("job_location", Value.str "Remote")] [])
      "dealname" = some (Value.str "Unknown Position at Unknown Company") :=
  (dealname_synthesis [("job_location", Value.str "Remote")] []
    (by intro p hp; simp at hp)).2 (by decide) (by decide)

/-- Claim C5: the raises-iff extraction failure policy.  Job parsing
fails exactly when the extracted title or company is not truthy after
extraction, company parsing fails exactly when the extracted name is not
truthy, every other input returns a record; in particular a text in which
the `"X at Y"` title pattern finds no match makes job parsing fail. -/
theorem extraction_raises_iff (text src : String) :
    ((∃ e, parse_job_text text src = Except.error e) ↔
      (truthy? (parseJobDetails text) "title" = false ∨
        truthy? (parseJobDetails text) "company" = false))
    ∧ ((∃ e, parse_company_text text src = Except.error e) ↔
      truthy? (parseCompanyDetails text) "name" = false)
    ∧ (reSearch false titleRE text = none →
      parse_job_text text src = Except.error jobEssentialError) := by
  refine ⟨?_, ?_, ?_⟩
  · simp only [parse_job_text]
    split_ifs with h
    · exact iff_of_true ⟨jobEssentialError, rfl⟩ h
    · refine iff_of_false ?_ h
      rintro ⟨e, he⟩
      exact he
  · simp only [parse_company_text]
    split_ifs with h
    · exact iff_of_true ⟨companyEssentialError, rfl⟩ h
    · refine iff_of_false ?_ h
      rintro ⟨e, he⟩
      exact he
  · intro h
    have hl : lookup? (parseJobDetails text) "title" = some (Value.str "") := by
      unfold parseJobDetails
      rw [h]
      simp [lookup?]
    have htitle : truthy? (parseJobDetails text) "title" = false := by
      rw [truthy?_of_lookup _ _ _ hl]
      rfl
    simp only [parse_job_text]
    rw [if_pos (Or.inl htitle)]

/-- Witness for C5: `"hello"` has no `"X at Y"` pattern, so job parsing
fails, and it has no `"... on LinkedIn"` heading, so company parsing
fails. -/
theorem extraction_raises_iff_witness :
    parse_job_text "hello" "job.pdf" = Except.error jobEssentialError
    ∧ (∃ e, parse_company_text "hello" "c.pdf" = Except.error e) :=
  ⟨(extraction_raises_iff "hello" "job.pdf").2.2 (by decide),
   ((extraction_raises_iff "hello" "c.pdf").2.1).mpr (by decide)⟩

set_option maxRecDepth 100000

/-- Counterexample to claim C6 as stated: on the end-to-end scenario
text the extracted company is not `"Acme Corp"` — the title pattern's
trailing character class `[\w\s,\-\&]` includes newlines, so the company
capture runs into the following line. -/
theorem scenario_extraction_cex :
    lookup? (parseJobDetails c6Text) "company" ≠
      some (Value.str "Acme Corp") := by decide

/-- Claim C6, amended: on the scenario text the extractor returns title
`"Senior Engineer"`, description `"Build things."`, responsibilities
`["Write code", "Ship it"]` and requirements `["5 years experience"]` as
claimed, but company is `"Acme Corp\nLocation"` and location is
`"Remote\nAbout the job"` — the greedy captures include the newline and
the following label, stopping only at the first character outside the
class (the colon). -/
theorem scenario_extraction :
    lookup? (parseJobDetails c6Text) "title" =
      some (Value.str "Senior Engineer")
    ∧ lookup? (parseJobDetails c6Text) "company" =
      some (Value.str "Acme Corp\nLocation")
    ∧ lookup? (parseJobDetails c6Text) "location" =
      some (Value.str "Remote\nAbout the job")
    ∧ lookup? (parseJobDetails c6Text) "description" =
      some (Value.str "Build things.")
    ∧ lookup? (parseJobDetails c6Text) "responsibilities" =
      some (Value.list ["Write code", "Ship it"])
    ∧ lookup? (parseJobDetails c6Text) "requirements" =
      some (Value.list ["5 years experience"]) := by decide

theorem lookup?_get_deal_properties_untouched (data defaults : Dict)
    (k : String)
    (hmap : ∀ p ∈ DEAL_FIELD_MAPPING, p.1 ≠ k)
    (h1 : k ≠ "dealstage") (h2 : k ≠ "pipeline")
    (h3 : k ≠ "hubspot_owner_id") (h4 : k ≠ "dealname")
    (hdef : ∀ p ∈ defaults, pyStartsWith p.1 "deal_" = true →
      p.1 ∉ dealWellKnownKeys → (p.2).isTruthy = true →
      dropPfx "deal_" p.1 ≠ k) :
    lookup? (get_deal_properties data defaults) k = none := by
  have h0 : lookup? (mapFields DEAL_FIELD_MAPPING data []) k = none :=
    lookup?_mapFields_preserve data k DEAL_FIELD_MAPPING [] hmap
  have e1 : lookup? (setFromDefault (mapFields DEAL_FIELD_MAPPING data [])
      defaults "deal_stage_id" "dealstage") k = none :=
    (lookup?_setFromDefault_ne _ defaults _ _ k h1).trans h0
  have e2 : lookup? (setFromDefault (setFromDefault
      (mapFields DEAL_FIELD_MAPPING data []) defaults "deal_stage_id"
      "dealstage") defaults "deal_pipeline_id" "pipeline") k = none :=
    (lookup?_setFromDefault_ne _ defaults _ _ k h2).trans e1
  have e3 : lookup? (setFromDefault (setFromDefault (setFromDefault
      (mapFields DEAL_FIELD_MAPPING data []) defaults "deal_stage_id"
      "dealstage") defaults "deal_pipeline_id" "pipeline") defaults
      "deal_owner_id" "hubspot_owner_id") k = none :=
    (lookup?_setFromDefault_ne _ defaults _ _ k h3).trans e2
  have e4 : lookup? (defaultsPass "deal_" dealWellKnownKeys defaults
      (setFromDefault (setFromDefault (setFromDefault
        (mapFields DEAL_FIELD_MAPPING data []) defaults "deal_stage_id"
        "dealstage") defaults "deal_pipeline_id" "pipeline") defaults
        "deal_owner_id" "hubspot_owner_id")) k = none :=
    lookup?_defaultsPass_none "deal_" dealWellKnownKeys k defaults _ hdef e3
  exact (lookup?_dealnameFallback_ne data _ k h4).trans e4

/-- Counterexample to claim C7 as stated: a `deal_stage_id` key that is
present in defaults but carries an empty value is skipped — no
`dealstage` property is written (`if defaults.get('deal_stage_id'):` is
a truthiness test, not a presence test). -/
theorem wellknown_deal_defaults_cex :
    lookup? (get_deal_properties [] [("deal_stage_id", Value.str "")])
      "dealstage" = none := by decide

/-- Claim C7, amended: whenever defaults contains `deal_stage_id`,
`deal_pipeline_id` or `deal_owner_id` with a non-empty value, the deal
mapper writes `dealstage`, `pipeline` and `hubspot_owner_id`
respectively to that value, for every input record; empty-valued
well-known keys are skipped; and the three well-known keys are exempt
from the generic `deal_` pass — no prefix-stripped property is ever
produced from them. -/
theorem wellknown_deal_defaults (data defaults : Dict) :
    (∀ v, lookup? defaults "deal_stage_id" = some v → v.isTruthy = true →
      lookup? (get_deal_properties data defaults) "dealstage" = some v)
    ∧ (∀ v, lookup? defaults "deal_pipeline_id" = some v →
      v.isTruthy = true →
      lookup? (get_deal_properties data defaults) "pipeline" = some v)
    ∧ (∀ v, lookup? defaults "deal_owner_id" = some v → v.isTruthy = true →
      lookup? (get_deal_properties data defaults) "hubspot_owner_id" = some v)
    ∧ (∀ (v₁ v₂ v₃ : Value) (k : String),
        (k = "stage_id" ∨ k = "dealstage_id" ∨ k = "pipeline_id" ∨
          k = "owner_id") →
        lookup? (get_deal_properties data
          [("deal_stage_id", v₁), ("deal_pipeline_id", v₂),
            ("deal_owner_id", v₃)]) k = none) := by
  refine ⟨?_, ?_, ?_, ?_⟩
  · intro v hv hvt
    have e1 : lookup? (setFromDefault (mapFields DEAL_FIELD_MAPPING data [])
        defaults "deal_stage_id" "dealstage") "dealstage" = some v :=
      lookup?_setFromDefault_self _ defaults _ _ v hv hvt
    have e2 : lookup? (setFromDefault (setFromDefault
        (mapFields DEAL_FIELD_MAPPING data []) defaults "deal_stage_id"
        "dealstage") defaults "deal_pipeline_id" "pipeline") "dealstage" =
        some v :=
      (lookup?_setFromDefault_ne _ defaults _ _ "dealstage" (by decide)).trans
        e1
    have e3 : lookup? (setFromDefault (setFromDefault (setFromDefault
        (mapFields DEAL_FIELD_MAPPING data []) defaults "deal_stage_id"
        "dealstage") defaults "deal_pipeline_id" "pipeline") defaults
        "deal_owner_id" "hubspot_owner_id") "dealstage" = some v :=
      (lookup?_setFromDefault_ne _ defaults _ _ "dealstage" (by decide)).trans
        e2
    have e4 : lookup? (defaultsPass "deal_" dealWellKnownKeys defaults
        (setFromDefault (setFromDefault (setFromDefault
          (mapFields DEAL_FIELD_MAPPING data []) defaults "deal_stage_id"
          "dealstage") defaults "deal_pipeline_id" "pipeline") defaults
          "deal_owner_id" "hubspot_owner_id")) "dealstage" = some v :=
      (lookup?_defaultsPass_of_hasKey "deal_" dealWellKnownKeys "dealstage"
        defaults _ (hasKey_of_lookup _ _ v e3)).trans e3
    exact (lookup?_dealnameFallback_of_hasKey data _ "dealstage"
      (hasKey_of_lookup _ _ v e4)).trans e4
  · intro v hv hvt
    have e2 : lookup? (setFromDefault (setFromDefault
        (mapFields DEAL_FIELD_MAPPING data []) defaults "deal_stage_id"
        "dealstage") defaults "deal_pipeline_id" "pipeline") "pipeline" =
        some v :=
      lookup?_setFromDefault_self _ defaults _ _ v hv hvt
    have e3 : lookup? (setFromDefault (setFromDefault (setFromDefault
        (mapFields DEAL_FIELD_MAPPING data []) defaults "deal_stage_id"
        "dealstage") defaults "deal_pipeline_id" "pipeline") defaults
        "deal_owner_id" "hubspot_owner_id") "pipeline" = some v :=
      (lookup?_setFromDefault_ne _ defaults _ _ "pipeline" (by decide)).trans
        e2
    have e4 : lookup? (defaultsPass "deal_" dealWellKnownKeys defaults
        (setFromDefault (setFromDefault (setFromDefault
          (mapFields DEAL_FIELD_MAPPING data []) defaults "deal_stage_id"
          "dealstage") defaults "deal_pipeline_id" "pipeline") defaults
          "deal_owner_id" "hubspot_owner_id")) "pipeline" = some v :=
      (lookup?_defaultsPass_of_hasKey "deal_" dealWellKnownKeys "pipeline"
        defaults _ (hasKey_of_lookup _ _ v e3)).trans e3
    exact (lookup?_dealnameFallback_of_hasKey data _ "pipeline"
      (hasKey_of_lookup _ _ v e4)).trans e4
  · intro v hv hvt
    have e3 : lookup? (setFromDefault (setFromDefault (setFromDefault
        (mapFields DEAL_FIELD_MAPPING data []) defaults "deal_stage_id"
        "dealstage") defaults "deal_pipeline_id" "pipeline") defaults
        "deal_owner_id" "hubspot_owner_id") "hubspot_owner_id" = some v :=
      lookup?_setFromDefault_self _ defaults _ _ v hv hvt
    have e4 : lookup? (defaultsPass "deal_" dealWellKnownKeys defaults
        (setFromDefault (setFromDefault (setFromDefault
          (mapFields DEAL_FIELD_MAPPING data []) defaults "deal_stage_id"
          "dealstage") defaults "deal_pipeline_id" "pipeline") defaults
          "deal_owner_id" "hubspot_owner_id")) "hubspot_owner_id" = some v :=
      (lookup?_defaultsPass_of_hasKey "deal_" dealWellKnownKeys
        "hubspot_owner_id" defaults _ (hasKey_of_lookup _ _ v e3)).trans e3
    exact (lookup?_dealnameFallback_of_hasKey data _ "hubspot_owner_id"
      (hasKey_of_lookup _ _ v e4)).trans e4
  · intro v₁ v₂ v₃ k hk
    have hdef : ∀ p ∈ ([("deal_stage_id", v₁), ("deal_pipeline_id", v₂),
        ("deal_owner_id", v₃)] : Dict),
        pyStartsWith p.1 "deal_" = true → p.1 ∉ dealWellKnownKeys →
        (p.2).isTruthy = true →
        dropPfx "deal_" p.1 ≠ k := by
      intro p hp _ hnot _
      exfalso
      simp only [List.mem_cons, List.not_mem_nil, or_false] at hp
      rcases hp with rfl | rfl | rfl
      · exact hnot (show ("deal_stage_id" : String) ∈ dealWellKnownKeys
          by decide)
      · exact hnot (show ("deal_pipeline_id" : String) ∈ dealWellKnownKeys
          by decide)
      · exact hnot (show ("deal_owner_id" : String) ∈ dealWellKnownKeys
          by decide)
    rcases hk with rfl | rfl | rfl | rfl
    · exact lookup?_get_deal_properties_untouched data _ _ (by decide)
        (by decide) (by decide) (by decide) (by decide) hdef
    · exact lookup?_get_deal_properties_untouched data _ _ (by decide)
        (by decide) (by decide) (by decide) (by decide) hdef
    · exact lookup?_get_deal_properties_untouched data _ _ (by decide)
        (by decide) (by decide) (by decide) (by decide) hdef
    · exact lookup?_get_deal_properties_untouched data _ _ (by decide)
        (by decide) (by decide) (by decide) (by decide) hdef

/-- Witness for C7: a truthy `deal_stage_id` default is written as the
`dealstage` property, and no `stage_id` property is produced from it. -/
theorem wellknown_deal_defaults_witness :
    lookup? (get_deal_properties [] [("deal_stage_id", Value.str "S")])
      "dealstage" = some (Value.str "S")
    ∧ lookup? (get_deal_properties []
      [("deal_stage_id", Value.str "S"), ("deal_pipeline_id", Value.str "P"),
        ("deal_owner_id", Value.str "O")]) "stage_id" = none :=
  ⟨(wellknown_deal_defaults [] [("deal_stage_id", Value.str "S")]).1
      (Value.str "S") (by decide) (by decide),
   (wellknown_deal_defaults []
      [("deal_stage_id", Value.str "S"), ("deal_pipeline_id", Value.str "P"),
        ("deal_owner_id", Value.str "O")]).2.2.2 (Value.str "S")
      (Value.str "P") (Value.str "O") "stage_id" (Or.inl rfl)⟩

/-- Claim C8: when the backing model call raises, the enrichment helper
returns the original content unmodified (the whole body is one
`try`/`except` that falls back to `content`); as a total function it
propagates no exception. -/
theorem enrichment_error_fallback
    (modelCall : String → String → Except String String)
    (content prompt_template model_id : String)
    (h : ∀ p m, ∃ e, modelCall p m = Except.error e) :
    process_with_llm_library modelCall content prompt_template model_id =
      content := by
  unfold process_with_llm_library
  cases hf : pyFormat prompt_template content with
  | error e => rfl
  | ok prompt =>
    obtain ⟨e, he⟩ := h prompt model_id
    show (match modelCall prompt model_id with
      | Except.error _ => content
      | Except.ok t => pyStrip t) = content
    rw [he]

/-- Witness for C8: a model call that always raises leaves the content
untouched. -/
theorem enrichment_error_fallback_witness :
    process_with_llm_library (fun _ _ => Except.error "model raised")
      "original description"
      (generate_job_description_prompt "original description")
      defaultModelId = "original description" :=
  enrichment_error_fallback (fun _ _ => Except.error "model raised")
    "original description"
    (generate_job_description_prompt "original description")
    defaultModelId (fun _ _ => ⟨"model raised", rfl⟩)

/-- Claim C9: the enrichment frame property.  `process_data_with_llm`
agrees with its input on every key other than `job_description` and
`company_description`, for every configuration, availability flag and
model behaviour; and when LLM processing is disabled by configuration it
returns the input dictionary itself. -/
theorem enrichment_frame (avail : Bool)
    (modelCall : String → String → Except String String)
    (data config : Dict) :
    (∀ k, k ≠ "job_description" → k ≠ "company_description" →
      lookup? (process_data_with_llm avail modelCall data config) k =
        lookup? data k)
    ∧ (truthy? config "llm_enabled" = false →
      process_data_with_llm avail modelCall data config = data) := by
  constructor
  · intro k h1 h2
    have hstep : ∀ (d : Dict) (key : String) (v : Value),
        key = "job_description" ∨ key = "company_description" →
        lookup? (dinsert d key v) k = lookup? d k := by
      intro d key v hkey
      rcases hkey with rfl | rfl
      · exact lookup?_dinsert_ne d _ k v h1
      · exact lookup?_dinsert_ne d _ k v h2
    simp only [process_data_with_llm]
    split_ifs
    · rfl
    · rfl
    · rw [hstep _ _ _ (Or.inr rfl), hstep _ _ _ (Or.inl rfl)]
    · rw [hstep _ _ _ (Or.inl rfl)]
    · rw [hstep _ _ _ (Or.inr rfl)]
    · rfl
  · intro h
    simp only [process_data_with_llm]
    rw [if_pos h]

/-- Witness for C9: with enrichment enabled and an echoing model, a
non-description field is unchanged; with it disabled, the data is
returned unchanged. -/
theorem enrichment_frame_witness :
    lookup? (process_data_with_llm true (fun p _ => Except.ok p)
      [("job_title", Value.str "T"), ("job_description", Value.str "D")]
      [("llm_enabled", Value.str "yes"),
        ("llm_method", Value.str "llm-library")]) "job_title" =
      some (Value.str "T")
    ∧ process_data_with_llm true (fun p _ => Except.ok p)
      [("job_description", Value.str "D")] [] =
      [("job_description", Value.str "D")] :=
  ⟨((enrichment_frame true (fun p _ => Except.ok p)
      [("job_title", Value.str "T"), ("job_description", Value.str "D")]
      [("llm_enabled", Value.str "yes"),
        ("llm_method", Value.str "llm-library")]).1 "job_title" (by decide)
      (by decide)).trans (by decide),
   (enrichment_frame true (fun p _ => Except.ok p)
      [("job_description", Value.str "D")] []).2 (by decide)⟩

/-- Claim C10: the organization mapper guarantees no identity field.
When the data map has no `company_name` key and defaults has no truthy
`company_`-prefixed entry that would strip to `name`, the output has no
`name` property at all (and, being a total function, no error is
raised); and whenever the `company_name` key is literally present in the
data — with any value, empty included — the output does have a `name`
property. -/
theorem organization_name_optional (data defaults : Dict) :
    (hasKey data "company_name" = false →
      (∀ p ∈ defaults, pyStartsWith p.1 "company_" = true →
        (p.2).isTruthy = true → dropPfx "company_" p.1 ≠ "name") →
      lookup? (get_company_properties data defaults) "name" = none)
    ∧ (hasKey data "company_name" = true →
      hasKey (get_company_properties data defaults) "name" = true) := by
  constructor
  · intro hcn hdef
    have hcond : ∀ p ∈ COMPANY_FIELD_MAPPING, p.1 = "name" →
        truthy? data p.2 = false := by
      intro p hp hpk
      simp only [COMPANY_FIELD_MAPPING, List.mem_cons, List.not_mem_nil,
        or_false] at hp
      rcases hp with rfl | rfl | rfl | rfl | rfl | rfl | rfl | rfl | rfl |
        rfl | rfl
      · exact truthy?_of_hasKey_false data _ hcn
      all_goals simp at hpk
    have h0 : lookup? (mapFields COMPANY_FIELD_MAPPING data []) "name" =
        none :=
      lookup?_mapFields_none data "name" COMPANY_FIELD_MAPPING [] hcond rfl
    have h1 : lookup? (defaultsPass "company_" [] defaults
        (mapFields COMPANY_FIELD_MAPPING data [])) "name" = none :=
      lookup?_defaultsPass_none "company_" [] "name" defaults _
        (fun p hp hpre _ htr => hdef p hp hpre htr) h0
    have hk1 : hasKey (defaultsPass "company_" [] defaults
        (mapFields COMPANY_FIELD_MAPPING data [])) "name" = false := by
      show (lookup? _ "name").isSome = false
      rw [h1]
      rfl
    show lookup? (companyNameFallback data _) "name" = none
    unfold companyNameFallback
    rw [if_neg (by rw [hk1]; exact Bool.false_ne_true),
      lookup?_of_hasKey_false data _ hcn]
    exact h1
  · intro hcn
    obtain ⟨v, hv⟩ : ∃ v, lookup? data "company_name" = some v := by
      unfold hasKey at hcn
      cases hd : lookup? data "company_name" with
      | none => rw [hd] at hcn; simp at hcn
      | some v => exact ⟨v, rfl⟩
    show hasKey (companyNameFallback data _) "name" = true
    unfold companyNameFallback
    split_ifs with h1
    · exact h1
    · rw [hv]
      exact hasKey_of_lookup _ _ v (lookup?_dinsert_self _ "name" v)

/-- Witness for C10: an empty data map and empty defaults yield a
property set with no `name` key, and a present-but-empty `company_name`
still produces a `name` property. -/
theorem organization_name_optional_witness :
    lookup? (get_company_properties [] []) "name" = none
    ∧ hasKey (get_company_properties [("company_name", Value.str "")] [])
      "name" = true :=
  ⟨(organization_name_optional [] []).1 rfl (by intro p hp; simp at hp),
   (organization_name_optional [("company_name", Value.str "")] []).2
      (by decide)⟩

end LinkToLead
